import Mathlib

/-!
Verification development for the home-feed parsing core of the youtui
repository (`src/ytmapi-rs/src/parse/home.rs` and
`src/ytmapi-rs/src/query/home.rs`).

The loosely structured wire document is modelled as a JSON tree; the
`json_crawler` navigation primitives are modelled as pure pointer lookups
over that tree (the crawler's destructive `take_value_pointer` is modelled
as a non-destructive read: every pointer read relevant to the properties
below is either the first read of its path or targets a disjoint path, so
the observable values agree with the destructive semantics).  Fallible Rust
functions returning `Result` are embedded as `Except String`.
-/

/-- A JSON document node (the tree the `json_crawler` navigates). -/
inductive Json where
  | null : Json
  | bool (b : Bool) : Json
  | num (n : Int) : Json
  | str (s : String) : Json
  | arr (xs : List Json) : Json
  | obj (fields : List (String × Json)) : Json
deriving Repr

/- ### String primitives.

The Rust code uses `str::starts_with`, slicing, `str::split`,
`str::contains`, `char::is_ascii_digit` and `str::parse::<usize>`.  These
are re-implemented here by structural recursion over the character list of
the string, so that every definition in this file evaluates on concrete
inputs by `rfl`/`decide`.  Rust string lengths and slice offsets are byte
counts; every place below that measures or slices a string does so under a
guard that forces the affected characters to be ASCII, where byte count
and character count agree. -/

/-- `str::starts_with` (the needles used are ASCII literals). -/
def strStartsWith (s p : String) : Bool :=
  p.data.isPrefixOf s.data

/-- `&s[n..]` for a byte offset `n` landing after an ASCII prefix. -/
def strDrop (s : String) (n : Nat) : String :=
  String.mk (s.data.drop n)

/-- One decimal digit of a numeric pointer segment. -/
def digitVal? (c : Char) : Option Nat :=
  if c.isDigit then some (c.toNat - 48) else none

/-- Accumulate decimal digits; any non-digit character fails. -/
def charsToNat : Nat → List Char → Option Nat
  | acc, [] => some acc
  | acc, c :: rest =>
      match digitVal? c with
      | some d => charsToNat (acc * 10 + d) rest
      | none => none

/-- `str::parse::<usize>` on a pointer segment: all-digit, non-empty. -/
def segToNat? (s : String) : Option Nat :=
  match s.data with
  | [] => none
  | _ => charsToNat 0 s.data

/-- Split a character list on a single separator character (the semantics
of `str::split` with a `char` pattern). -/
def splitChar (sep : Char) : List Char → List (List Char)
  | [] => [[]]
  | c :: rest =>
      if c = sep then [] :: splitChar sep rest
      else
        match splitChar sep rest with
        | part :: parts => (c :: part) :: parts
        | [] => [[c]]

/-- Whether `pat` occurs as a contiguous sublist of `l`
(`str::contains`). -/
def containsSubList (pat : List Char) : List Char → Bool
  | [] => pat.isEmpty
  | c :: rest => pat.isPrefixOf (c :: rest) || containsSubList pat rest

/-- `s.contains(pat)` on Rust strings (substring containment). -/
def containsSubstring (s pat : String) : Bool :=
  containsSubList pat.data s.data

/-- Fuel-indexed splitter on a multi-character separator; the fuel is the
input length plus one, enough because every step consumes at least one
character when the separator is non-empty. -/
def splitOnFuel (sep : List Char) : Nat → List Char → List Char → List (List Char)
  | 0, l, acc => [acc.reverse ++ l]
  | _ + 1, [], acc => [acc.reverse]
  | fuel + 1, c :: rest, acc =>
      if sep.isPrefixOf (c :: rest) then
        acc.reverse :: splitOnFuel sep fuel ((c :: rest).drop sep.length) []
      else
        splitOnFuel sep fuel rest (c :: acc)

/-- `str::split` with a non-empty string pattern (`sep` empty returns the
whole string, a case never exercised by the code). -/
def rsSplit (s sep : String) : List String :=
  if sep.data.isEmpty then [s]
  else (splitOnFuel sep.data (s.data.length + 1) s.data []).map String.mk

/-- First-match lookup of a key in a JSON object's field list. -/
def Json.lookupField : List (String × Json) → String → Option Json
  | [], _ => none
  | (k, v) :: rest, key => if k = key then some v else Json.lookupField rest key

/-- Resolve one pointer segment against a node: object key or array index. -/
def Json.navSeg (j : Json) (seg : String) : Option Json :=
  match j with
  | .obj fields => Json.lookupField fields seg
  | .arr xs =>
      match segToNat? seg with
      | some i => xs.get? i
      | none => none
  | _ => none

/-- Resolve a list of pointer segments left to right. -/
def Json.navSegs : Json → List String → Option Json
  | j, [] => some j
  | j, s :: rest =>
      match j.navSeg s with
      | some j2 => j2.navSegs rest
      | none => none

/-- Split a JSON-pointer string `/a/b/c` into its segments `[a, b, c]`. -/
def splitPath (p : String) : List String :=
  ((splitChar '/' p.data).map String.mk).drop 1

/-- Model of `JsonCrawler::navigate_pointer` / `borrow_pointer`:
resolve a pointer path, `none` when the path does not exist. -/
def navigatePointer (j : Json) (p : String) : Option Json :=
  j.navSegs (splitPath p)

/-- Model of `JsonCrawler::path_exists`. -/
def pathExists (j : Json) (p : String) : Bool :=
  (navigatePointer j p).isSome

/-- Model of `take_value_pointer::<String>(...).ok()`: the value at the
path, provided it exists and is a string. -/
def takeString (j : Json) (p : String) : Option String :=
  match navigatePointer j p with
  | some (.str s) => some s
  | _ => none

/-- View a node as an array of elements (`try_iter_mut` succeeds only on
arrays). -/
def Json.asArr : Json → Option (List Json)
  | .arr xs => some xs
  | _ => none

/- ### Identifier newtypes (distinct wrappers around raw strings,
as in `crate::common`). -/

structure AlbumID where
  raw : String
deriving Repr, DecidableEq

structure PlaylistID where
  raw : String
deriving Repr, DecidableEq

structure ArtistChannelID where
  raw : String
deriving Repr, DecidableEq

structure VideoID where
  raw : String
deriving Repr, DecidableEq

structure MoodCategoryParams where
  raw : String
deriving Repr, DecidableEq

/-- Model of `ContinuationParams`: the opaque continuation cursor. -/
structure ContinuationParams where
  raw : String
deriving Repr, DecidableEq

/-- A thumbnail descriptor.  Its internal shape (url + dimensions) is never
inspected by the properties below, so it is kept as the raw subtree. -/
abbrev Thumbnail := Json

/-- Explicit-content flag (`crate::common::Explicit`). -/
inductive Explicit where
  | isExplicit
  | notExplicit
deriving Repr, DecidableEq

/-- Modelled from the spec: `crate::youtube_enums::YoutubeMusicVideoType`
(file not under `src/`).  §4.2 names `UGC`, `OMV`, `SHOULDER` as the
video-type values mapped to Video, and the code comment on the Song branch
names `Atv` and `OfficialSourceMusic` as the other concrete values. -/
inductive YoutubeMusicVideoType where
  | ugc
  | omv
  | shoulder
  | atv
  | officialSourceMusic
deriving Repr, DecidableEq

/-- Modelled from the spec: serde deserialization of
`YoutubeMusicVideoType` from its wire string; an unrecognized string fails
to deserialize. -/
def YoutubeMusicVideoType.ofWire : String → Option YoutubeMusicVideoType
  | "MUSIC_VIDEO_TYPE_UGC" => some .ugc
  | "MUSIC_VIDEO_TYPE_OMV" => some .omv
  | "MUSIC_VIDEO_TYPE_SHOULDER" => some .shoulder
  | "MUSIC_VIDEO_TYPE_ATV" => some .atv
  | "MUSIC_VIDEO_TYPE_OFFICIAL_SOURCE_MUSIC" => some .officialSourceMusic
  | _ => none

/-- An artist reference parsed from subtitle runs
(`crate::parse::ParsedSongArtist`). -/
structure ParsedSongArtist where
  name : String
  id : Option ArtistChannelID
deriving Repr, DecidableEq

/-- An album reference parsed from subtitle runs
(`crate::parse::ParsedSongAlbum`). -/
structure ParsedSongAlbum where
  name : String
  id : AlbumID
deriving Repr, DecidableEq

/- ### Navigation constants.

`SECTION_LIST_CONTINUATION` and `CAROUSEL_HEADER` are declared in
`parse/home.rs` itself.  The remaining pointer constants live in
`crate::nav_consts` (not under `src/`); they are modelled from the spec,
§6, which fixes each of them as a fixed documented pointer; their exact
spellings are opaque to every property proved below. -/

def SECTION_LIST_CONTINUATION : String := "/continuationContents/sectionListContinuation"

def CAROUSEL_HEADER : String := "/header/musicCarouselShelfBasicHeaderRenderer"

/-- Modelled from the spec: the fixed pointer constants of
`crate::nav_consts` used by `parse/home.rs`. -/
def MTRIR : String := "/musicTwoRowItemRenderer"

def CAROUSEL : String := "/musicCarouselShelfRenderer"

def TITLE : String := "/title/runs/0"

def TITLE_TEXT : String := "/title/runs/0/text"

def NAVIGATION_BROWSE : String := "/navigationEndpoint/browseEndpoint"

def PAGE_TYPE : String :=
  "/browseEndpointContextSupportedConfigs/browseEndpointContextMusicConfig/pageType"

def NAVIGATION_BROWSE_ID : String := "/navigationEndpoint/browseEndpoint/browseId"

def NAVIGATION_VIDEO_ID : String := "/navigationEndpoint/watchEndpoint/videoId"

def NAVIGATION_PLAYLIST_ID : String := "/navigationEndpoint/watchEndpoint/playlistId"

def NAVIGATION_WATCH_PLAYLIST_ID : String :=
  "/navigationEndpoint/watchPlaylistEndpoint/playlistId"

def THUMBNAIL_RENDERER : String :=
  "/thumbnailRenderer/musicThumbnailRenderer/thumbnail/thumbnails"

def SUBTITLE_RUNS : String := "/subtitle/runs"

def SUBTITLE : String := "/subtitle/runs/0/text"

def SUBTITLE2 : String := "/subtitle/runs/2/text"

def SUBTITLE_BADGE_LABEL : String :=
  "/subtitleBadges/0/musicInlineBadgeRenderer/accessibilityData/accessibilityData/label"

def CONTINUATION_PARAMS : String :=
  "/continuations/0/nextContinuationData/continuation"

/-- The watch-endpoint music-video-type pointer spelled inline in
`parse_home_item`. -/
def MUSIC_VIDEO_TYPE_PATH : String :=
  "/navigationEndpoint/watchEndpoint/watchEndpointMusicSupportedConfigs/watchEndpointMusicConfig/musicVideoType"

/-- The chip-cloud pointer spelled inline in `parse_home_contents`. -/
def CHIP_CLOUD_PATH : String :=
  "/musicImmersiveHeaderRenderer/chipCloud/chipCloudRenderer/chips"

/-- Model of `take_value_pointer::<YoutubeMusicVideoType>(...).ok()` at the
watch-endpoint video-type pointer: absent path, non-string value and
unrecognized wire string all yield `none`. -/
def takeVideoType (j : Json) : Option YoutubeMusicVideoType :=
  (takeString j MUSIC_VIDEO_TYPE_PATH).bind YoutubeMusicVideoType.ofWire

/- ### Data model (`parse/home.rs`). -/

/-- A mood/category chip shown at the top of the home feed. -/
structure HomeMoodChip where
  title : String
  params : MoodCategoryParams
deriving Repr, DecidableEq

/-- An album shown on the home page. -/
structure HomeAlbum where
  title : String
  album_id : AlbumID
  thumbnails : List Thumbnail
  year : Option String
  artists : List ParsedSongArtist
  explicit : Explicit
  album_type : Option String
  subtitle : Option String
deriving Repr

/-- A playlist shown on the home page. -/
structure HomePlaylist where
  title : String
  playlist_id : PlaylistID
  thumbnails : List Thumbnail
  description : Option String
  count : Option String
  author : List ParsedSongArtist
  subtitle : Option String
deriving Repr

/-- An artist shown on the home page. -/
structure HomeArtist where
  title : String
  channel_id : ArtistChannelID
  subscribers : Option String
  thumbnails : List Thumbnail
  subtitle : Option String
deriving Repr

/-- A song shown on the home page. -/
structure HomeSong where
  title : String
  video_id : VideoID
  artists : List ParsedSongArtist
  thumbnails : List Thumbnail
  album : Option ParsedSongAlbum
  explicit : Explicit
  playlist_id : Option PlaylistID
  subtitle : Option String
deriving Repr

/-- A video shown on the home page. -/
structure HomeVideo where
  title : String
  video_id : VideoID
  artists : List ParsedSongArtist
  thumbnails : List Thumbnail
  views : Option String
  playlist_id : Option PlaylistID
  subtitle : Option String
deriving Repr

/-- A watch playlist (auto-generated mix/radio) shown on the home page. -/
structure HomeWatchPlaylist where
  title : String
  playlist_id : PlaylistID
  thumbnails : List Thumbnail
  subtitle : Option String
deriving Repr

/-- Content items that can appear in a home section. -/
inductive HomeContent where
  | album (a : HomeAlbum)
  | playlist (p : HomePlaylist)
  | artist (a : HomeArtist)
  | song (s : HomeSong)
  | video (v : HomeVideo)
  | watchPlaylist (w : HomeWatchPlaylist)
deriving Repr

/-- A section on the home page containing a title and mixed content. -/
structure HomeSection where
  title : String
  strapline : Option String
  thumbnail : Option Thumbnail
  contents : List HomeContent
deriving Repr

/-- A collection of home sections returned from the home feed query. -/
structure HomeSections where
  chips : List HomeMoodChip
  sections : List HomeSection
deriving Repr

/-- `HomeSections::new`. -/
def HomeSections.new (chips : List HomeMoodChip) (sections : List HomeSection) :
    HomeSections :=
  { chips := chips, sections := sections }

/-- `HomeSections::from_sections`: only sections, no chips. -/
def HomeSections.from_sections (sections : List HomeSection) : HomeSections :=
  { chips := [], sections := sections }

/-- `HomeSections::default` (derived `Default`): empty chips and sections. -/
def HomeSections.default : HomeSections :=
  { chips := [], sections := [] }

/-- `HomeSections::extend`: appends the other collection's sections; chips
are only kept from the first response (`&mut self` receiver embedded as
explicit state passing). -/
def HomeSections.extend (self other : HomeSections) : HomeSections :=
  { self with sections := self.sections ++ other.sections }

/-- `HomeSections::truncate`: truncates the sections to the given length. -/
def HomeSections.truncate (self : HomeSections) (len : Nat) : HomeSections :=
  { self with sections := self.sections.take len }

/- ### Subtitle tokenizers. -/

/-- `get_full_subtitle`: joined text of all subtitle runs, `none` when the
runs are absent, not an array, or yield no text parts. -/
def get_full_subtitle (data : Json) : Option String :=
  match navigatePointer data SUBTITLE_RUNS with
  | some runs =>
      match runs.asArr with
      | some xs =>
          let parts := xs.filterMap (fun r => takeString r "/text")
          if parts.isEmpty then none else some (String.join parts)
      | none => none
  | none => none

/-- The loop body of `parse_artists_from_subtitle_runs`, indexed by the
enumeration counter `i`: odd indices are separators; the type-specifier
words and four-ASCII-digit years are skipped; everything else becomes an
artist reference carrying the optional browse identifier. -/
def artistsFromSubtitleLoop : Nat → List Json → List ParsedSongArtist
  | _, [] => []
  | i, run :: rest =>
      if i % 2 != 0 then
        artistsFromSubtitleLoop (i + 1) rest
      else
        match takeString run "/text" with
        | none => artistsFromSubtitleLoop (i + 1) rest
        | some text =>
            if text = "Album" || text = "Single" || text = "EP" ||
                text = "Song" || text = "Video" then
              artistsFromSubtitleLoop (i + 1) rest
            else if text.length == 4 && text.data.all Char.isDigit then
              artistsFromSubtitleLoop (i + 1) rest
            else
              let id := (takeString run NAVIGATION_BROWSE_ID).map ArtistChannelID.mk
              { name := text, id := id } :: artistsFromSubtitleLoop (i + 1) rest

/-- `parse_artists_from_subtitle_runs`: artists from subtitle runs,
skipping type specifiers, years and separators.  Absent runs give an empty
list; runs that are not an array make `try_iter_mut` fail. -/
def parse_artists_from_subtitle_runs (data : Json) :
    Except String (List ParsedSongArtist) :=
  match navigatePointer data SUBTITLE_RUNS with
  | none => .ok []
  | some runs =>
      match runs.asArr with
      | some xs => .ok (artistsFromSubtitleLoop 0 xs)
      | none => .error "try_iter_mut"

/-- The loop body of `parse_song_artists_from_runs`: odd indices are
separators; the "Song"/"Video" type specifiers and tokens containing
"views" are skipped; a token whose browse identifier starts with "MPRE" is
an album reference and skipped; everything else becomes an artist. -/
def songArtistsLoop : Nat → List Json → List ParsedSongArtist
  | _, [] => []
  | i, run :: rest =>
      if i % 2 != 0 then
        songArtistsLoop (i + 1) rest
      else
        match takeString run "/text" with
        | none => songArtistsLoop (i + 1) rest
        | some text =>
            if text = "Song" || text = "Video" then
              songArtistsLoop (i + 1) rest
            else if containsSubstring text "views" then
              songArtistsLoop (i + 1) rest
            else
              match takeString run NAVIGATION_BROWSE_ID with
              | some browse_id =>
                  if strStartsWith browse_id "MPRE" then
                    songArtistsLoop (i + 1) rest
                  else
                    { name := text, id := some (ArtistChannelID.mk browse_id) } ::
                      songArtistsLoop (i + 1) rest
              | none =>
                  { name := text, id := none } :: songArtistsLoop (i + 1) rest

/-- `parse_song_artists_from_runs`: song/video artists from subtitle
runs. -/
def parse_song_artists_from_runs (data : Json) :
    Except String (List ParsedSongArtist) :=
  match navigatePointer data SUBTITLE_RUNS with
  | none => .ok []
  | some runs =>
      match runs.asArr with
      | some xs => .ok (songArtistsLoop 0 xs)
      | none => .error "try_iter_mut"

/-- The loop body of `parse_album_from_subtitle_runs`: the first run whose
browse identifier starts with "MPRE" and carries a text yields the album
reference. -/
def albumFromRunsLoop : List Json → Option ParsedSongAlbum
  | [] => none
  | run :: rest =>
      match takeString run NAVIGATION_BROWSE_ID with
      | some id =>
          if strStartsWith id "MPRE" then
            match takeString run "/text" with
            | some name => some { name := name, id := AlbumID.mk id }
            | none => albumFromRunsLoop rest
          else albumFromRunsLoop rest
      | none => albumFromRunsLoop rest

/-- `parse_album_from_subtitle_runs`: album reference from subtitle runs,
`none` when no album is found. -/
def parse_album_from_subtitle_runs (data : Json) :
    Except String (Option ParsedSongAlbum) :=
  match navigatePointer data SUBTITLE_RUNS with
  | none => .ok none
  | some runs =>
      match runs.asArr with
      | some xs => .ok (albumFromRunsLoop xs)
      | none => .error "try_iter_mut"

/- ### Item parsers. -/

/-- Lift an optional required field to `Except`: `take_value_pointer(..)?`
(and `borrow_pointer(..)?`) surface a missing or ill-typed required field
as a hard error. -/
def reqField {α : Type} (o : Option α) (e : String) : Except String α :=
  match o with
  | some a => .ok a
  | none => .error e

/-- `take_value_pointer::<Vec<Thumbnail>>(...)`: the array of thumbnail
subtrees at the path. -/
def takeThumbnails (j : Json) (p : String) : Option (List Thumbnail) :=
  (navigatePointer j p).bind Json.asArr

/-- `s.split(' ').next().unwrap_or(s)`: the characters before the first
space. -/
def firstToken (s : String) : String :=
  String.mk (s.data.takeWhile (fun c => c != ' '))

/-- `parse_home_album` from `musicTwoRowItemRenderer`. -/
def parse_home_album (data : Json) : Except String HomeAlbum := do
  let title ← reqField (takeString data TITLE_TEXT) "title"
  let album_id ← reqField
    ((takeString data (TITLE ++ NAVIGATION_BROWSE_ID)).map AlbumID.mk) "browseId"
  let thumbnails ← reqField (takeThumbnails data THUMBNAIL_RENDERER) "thumbnails"
  let subtitle := get_full_subtitle data
  let artists ← parse_artists_from_subtitle_runs data
  let year := (takeString data SUBTITLE2).filter
    (fun y => y.data.all Char.isDigit && y.length == 4)
  let explicit := if pathExists data SUBTITLE_BADGE_LABEL then
    Explicit.isExplicit else Explicit.notExplicit
  let album_type := takeString data SUBTITLE
  .ok { title := title, album_id := album_id, thumbnails := thumbnails,
        year := year, artists := artists, explicit := explicit,
        album_type := album_type, subtitle := subtitle }

/-- `parse_home_artist` from `musicTwoRowItemRenderer`. -/
def parse_home_artist (data : Json) : Except String HomeArtist := do
  let title ← reqField (takeString data TITLE_TEXT) "title"
  let channel_id ← reqField
    ((takeString data (TITLE ++ NAVIGATION_BROWSE_ID)).map ArtistChannelID.mk) "browseId"
  let thumbnails ← reqField (takeThumbnails data THUMBNAIL_RENDERER) "thumbnails"
  let subtitle := get_full_subtitle data
  let subscribers := subtitle.map firstToken
  .ok { title := title, channel_id := channel_id, subscribers := subscribers,
        thumbnails := thumbnails, subtitle := subtitle }

/-- `parse_home_playlist` from `musicTwoRowItemRenderer`; the raw browse
identifier loses a leading "VL" prefix when present. -/
def parse_home_playlist (data : Json) : Except String HomePlaylist := do
  let title ← reqField (takeString data TITLE_TEXT) "title"
  let browse_id ← reqField (takeString data (TITLE ++ NAVIGATION_BROWSE_ID)) "browseId"
  let playlist_id := PlaylistID.mk
    (if strStartsWith browse_id "VL" then strDrop browse_id 2 else browse_id)
  let thumbnails ← reqField (takeThumbnails data THUMBNAIL_RENDERER) "thumbnails"
  let subtitle := get_full_subtitle data
  let description := subtitle
  let count := (takeString data SUBTITLE2).bind
    (fun s => if s.data.any Char.isDigit then some (firstToken s) else none)
  let author := match parse_artists_from_subtitle_runs data with
    | .ok a => a
    | .error _ => []
  .ok { title := title, playlist_id := playlist_id, thumbnails := thumbnails,
        description := description, count := count, author := author,
        subtitle := subtitle }

/-- `parse_home_song` from `musicTwoRowItemRenderer`. -/
def parse_home_song (data : Json) : Except String HomeSong := do
  let title ← reqField (takeString data TITLE_TEXT) "title"
  let video_id ← reqField
    ((takeString data NAVIGATION_VIDEO_ID).map VideoID.mk) "videoId"
  let thumbnails ← reqField (takeThumbnails data THUMBNAIL_RENDERER) "thumbnails"
  let subtitle := get_full_subtitle data
  let artists ← parse_song_artists_from_runs data
  let album ← parse_album_from_subtitle_runs data
  let explicit := if pathExists data SUBTITLE_BADGE_LABEL then
    Explicit.isExplicit else Explicit.notExplicit
  let playlist_id := (takeString data NAVIGATION_PLAYLIST_ID).map PlaylistID.mk
  .ok { title := title, video_id := video_id, artists := artists,
        thumbnails := thumbnails, album := album, explicit := explicit,
        playlist_id := playlist_id, subtitle := subtitle }

/-- The views filter of `parse_home_video`: the last " • "-separated part
of the subtitle, kept when it mentions views or contains a digit. -/
def viewsFromSubtitle (s : String) : Option String :=
  ((rsSplit s " • ").getLast?).bind
    (fun v =>
      if containsSubstring v "views" || containsSubstring v "visualizaciones" ||
          v.data.any Char.isDigit then
        some v
      else none)

/-- `parse_home_video` from `musicTwoRowItemRenderer`. -/
def parse_home_video (data : Json) : Except String HomeVideo := do
  let title ← reqField (takeString data TITLE_TEXT) "title"
  let video_id ← reqField
    ((takeString data NAVIGATION_VIDEO_ID).map VideoID.mk) "videoId"
  let thumbnails ← reqField (takeThumbnails data THUMBNAIL_RENDERER) "thumbnails"
  let subtitle := get_full_subtitle data
  let artists ← parse_song_artists_from_runs data
  let views := subtitle.bind viewsFromSubtitle
  let playlist_id := (takeString data NAVIGATION_PLAYLIST_ID).map PlaylistID.mk
  .ok { title := title, video_id := video_id, artists := artists,
        thumbnails := thumbnails, views := views, playlist_id := playlist_id,
        subtitle := subtitle }

/-- `parse_home_watch_playlist` (mix/radio) from
`musicTwoRowItemRenderer`. -/
def parse_home_watch_playlist (data : Json) : Except String HomeWatchPlaylist := do
  let title ← reqField (takeString data TITLE_TEXT) "title"
  let playlist_id ← reqField
    ((takeString data NAVIGATION_WATCH_PLAYLIST_ID).map PlaylistID.mk) "watchPlaylistId"
  let thumbnails ← reqField (takeThumbnails data THUMBNAIL_RENDERER) "thumbnails"
  let subtitle := get_full_subtitle data
  .ok { title := title, playlist_id := playlist_id, thumbnails := thumbnails,
        subtitle := subtitle }

/-- `parse_home_item`: classify a single carousel item by its page type,
falling back to the watch-playlist / video-id disambiguation; unknown
shapes are skipped (`Ok(None)`). -/
def parse_home_item (item : Json) : Except String (Option HomeContent) :=
  match navigatePointer item MTRIR with
  | none => .ok none
  | some data =>
      match takeString data (TITLE ++ NAVIGATION_BROWSE ++ PAGE_TYPE) with
      | some "MUSIC_PAGE_TYPE_ALBUM" | some "MUSIC_PAGE_TYPE_AUDIOBOOK" =>
          (parse_home_album data).map (fun a => some (.album a))
      | some "MUSIC_PAGE_TYPE_ARTIST" | some "MUSIC_PAGE_TYPE_USER_CHANNEL" =>
          (parse_home_artist data).map (fun a => some (.artist a))
      | some "MUSIC_PAGE_TYPE_PLAYLIST" =>
          (parse_home_playlist data).map (fun p => some (.playlist p))
      | none =>
          if pathExists data NAVIGATION_WATCH_PLAYLIST_ID then
            match takeVideoType data with
            | some .ugc | some .omv | some .shoulder =>
                (parse_home_video data).map (fun v => some (.video v))
            | some _ =>
                (parse_home_song data).map (fun s => some (.song s))
            | none =>
                (parse_home_watch_playlist data).map (fun w => some (.watchPlaylist w))
          else if pathExists data NAVIGATION_VIDEO_ID then
            match takeVideoType data with
            | some .ugc | some .omv | some .shoulder =>
                (parse_home_video data).map (fun v => some (.video v))
            | _ =>
                (parse_home_song data).map (fun s => some (.song s))
          else
            .ok none
      | some _ => .ok none

/- ### Section / carousel assembly and the continuation engine. -/

/-- `parse_mood_chip`: display text and category parameter of one chip. -/
def parse_mood_chip (chip : Json) : Except String HomeMoodChip := do
  let renderer ← reqField (navigatePointer chip "/chipCloudChipRenderer") "chipCloudChipRenderer"
  let title ← reqField (takeString renderer "/text/runs/0/text") "chip title"
  let params ← reqField
    ((takeString renderer "/navigationEndpoint/browseEndpoint/params").map MoodCategoryParams.mk)
    "chip params"
  .ok { title := title, params := params }

/-- The chip loop of `parse_home_contents`: chips whose parse fails are
skipped (`if let Ok(chip) = parse_mood_chip ...`). -/
def chipListLoop : List Json → List HomeMoodChip
  | [] => []
  | c :: rest =>
      match parse_mood_chip c with
      | .ok chip => chip :: chipListLoop rest
      | .error _ => chipListLoop rest

/-- Iterate a chip cloud: `try_iter_mut` fails on a non-array. -/
def parse_chip_cloud (chipCloud : Json) : Except String (List HomeMoodChip) :=
  match chipCloud.asArr with
  | some xs => .ok (chipListLoop xs)
  | none => .error "try_iter_mut"

/-- The item loop of `parse_carousel_section`: item errors propagate,
skipped items (`Ok(None)`) are dropped. -/
def homeItemsLoop : List Json → Except String (List HomeContent)
  | [] => .ok []
  | it :: rest => do
      let c? ← parse_home_item it
      let cs ← homeItemsLoop rest
      .ok (match c? with
        | some c => c :: cs
        | none => cs)

/-- `parse_carousel_section`: a carousel with no item list yields no
section; a missing header or title is a hard error; a carousel all of
whose items are skipped yields no section. -/
def parse_carousel_section (carousel : Json) : Except String (Option HomeSection) :=
  if !(pathExists carousel "/contents") then .ok none
  else do
    let header ← reqField (navigatePointer carousel CAROUSEL_HEADER) "header"
    let title ← reqField (takeString header (TITLE ++ "/text")) "title"
    let strapline := takeString header "/strapline/runs/0/text"
    let thumbnail := navigatePointer header "/thumbnail/musicThumbnailRenderer/thumbnail/thumbnails/0"
    let contentsNode ← reqField (navigatePointer carousel "/contents") "contents"
    let items ← reqField contentsNode.asArr "try_iter_mut"
    let contents ← homeItemsLoop items
    if contents.isEmpty then .ok none
    else .ok (some { title := title, strapline := strapline,
                     thumbnail := thumbnail, contents := contents })

/-- The row loop of `parse_home_contents`: chip-cloud rows feed the chip
list, carousel rows feed the section list, other rows are ignored. -/
def parse_home_rows : List Json → Except String (List HomeMoodChip × List HomeSection)
  | [] => .ok ([], [])
  | row :: rest =>
      if pathExists row CHIP_CLOUD_PATH then
        match navigatePointer row CHIP_CLOUD_PATH with
        | some chipCloud => do
            let cs ← parse_chip_cloud chipCloud
            let (restChips, restSections) ← parse_home_rows rest
            .ok (cs ++ restChips, restSections)
        | none => parse_home_rows rest
      else if pathExists row CAROUSEL then
        match navigatePointer row CAROUSEL with
        | some car => do
            let s? ← parse_carousel_section car
            let (restChips, restSections) ← parse_home_rows rest
            .ok (restChips,
              match s? with
              | some s => s :: restSections
              | none => restSections)
        | none => parse_home_rows rest
      else parse_home_rows rest

/-- `parse_home_contents`: mood chips and sections of a first-page
contents array. -/
def parse_home_contents (contents : Json) :
    Except String (List HomeMoodChip × List HomeSection) :=
  match contents.asArr with
  | some rows => parse_home_rows rows
  | none => .error "try_iter_mut"

/-- The row loop of `parse_mixed_content` (continuation pages carry no
chips). -/
def parse_mixed_rows : List Json → Except String (List HomeSection)
  | [] => .ok []
  | row :: rest =>
      if pathExists row CAROUSEL then
        match navigatePointer row CAROUSEL with
        | some car => do
            let s? ← parse_carousel_section car
            let rs ← parse_mixed_rows rest
            .ok (match s? with
              | some s => s :: rs
              | none => rs)
        | none => parse_mixed_rows rest
      else parse_mixed_rows rest

/-- `parse_mixed_content`: sections of a continuation contents array. -/
def parse_mixed_content (sections : Json) : Except String (List HomeSection) :=
  match sections.asArr with
  | some rows => parse_mixed_rows rows
  | none => .error "try_iter_mut"

/-- The continuation cursor read (`take_value_pointer(CONTINUATION_PARAMS).ok()`). -/
def takeContinuationParams (j : Json) : Option ContinuationParams :=
  (takeString j CONTINUATION_PARAMS).map ContinuationParams.mk

/-- Modelled from the spec: the root tab pointer `SINGLE_COLUMN_TAB` of
`crate::nav_consts` (§6: a root tab container holds the section-list
container). -/
def SINGLE_COLUMN_TAB : String :=
  "/contents/singleColumnBrowseResultsRenderer/tabs/0/tabRenderer/content"

/-- `parse_from_continuable`: first-page parse (chips + sections + cursor). -/
def parse_from_continuable (j : Json) :
    Except String (HomeSections × Option ContinuationParams) := do
  let section_list ← reqField
    (navigatePointer j (SINGLE_COLUMN_TAB ++ "/sectionListRenderer")) "sectionListRenderer"
  let continuation_params := takeContinuationParams section_list
  let contents ← reqField (navigatePointer section_list "/contents") "contents"
  let (chips, sections) ← parse_home_contents contents
  .ok (HomeSections.new chips sections, continuation_params)

/-- `parse_continuation`: a document lacking the continuation-content
region is the normal end of the stream (empty result, no cursor); an
absent inner contents array gives an empty section list. -/
def parse_continuation (j : Json) :
    Except String (HomeSections × Option ContinuationParams) :=
  match navigatePointer j SECTION_LIST_CONTINUATION with
  | none => .ok (HomeSections.default, none)
  | some section_list =>
      let continuation_params := takeContinuationParams section_list
      match navigatePointer section_list "/contents" with
      | some contents =>
          match parse_mixed_content contents with
          | .ok sections => .ok (HomeSections.from_sections sections, continuation_params)
          | .error e => .error e
      | none => .ok (HomeSections.from_sections [], continuation_params)

/- ### The home query (`query/home.rs`). -/

/-- `GetHomeQuery`: the home-feed request with an optional item budget. -/
structure GetHomeQuery where
  limit : Option Nat
deriving Repr, DecidableEq

/-- `GetHomeQuery::new`. -/
def GetHomeQuery.new : GetHomeQuery := { limit := none }

/-- `GetHomeQuery::with_limit`. -/
def GetHomeQuery.with_limit (self : GetHomeQuery) (limit : Nat) : GetHomeQuery :=
  { self with limit := some limit }

/-- `PostQuery::header` for `GetHomeQuery`: the body map; the limit only
gates the extra config entry, its value is ignored (`Some(_limit)`). -/
def GetHomeQuery.header (self : GetHomeQuery) : List (String × Json) :=
  let map := [("browseId", Json.str "FEmusic_home")]
  match self.limit with
  | some _ =>
      map ++ [("browseEndpointContextSupportedConfigs",
        Json.obj [("browseEndpointContextMusicConfig",
          Json.obj [("pageType", Json.str "MUSIC_PAGE_TYPE_HOME")])])]
  | none => map

/-- `PostQuery::params` for `GetHomeQuery`: always empty. -/
def GetHomeQuery.params (_ : GetHomeQuery) : List (String × String) := []

/-- `PostQuery::path` for `GetHomeQuery`: always "browse". -/
def GetHomeQuery.path (_ : GetHomeQuery) : String := "browse"

/- ### Concrete documents used by the witnesses and counterexamples. -/

/-- A plain subtitle run carrying only display text. -/
def textRun (t : String) : Json := .obj [("text", .str t)]

/-- The subtitle data of §8.6: tokens "Album", " • ", "Radiohead", " • ",
"1997". -/
def exAlbumSubtitleData : Json :=
  .obj [("subtitle", .obj [("runs", .arr
    [textRun "Album", textRun " • ", textRun "Radiohead",
     textRun " • ", textRun "1997"])])]

/-- A subtitle run whose browse identifier carries the album-reference
prefix `MPRE`. -/
def mpreRun : Json :=
  .obj [("text", .str "OK Computer"),
        ("navigationEndpoint", .obj [("browseEndpoint", .obj
          [("browseId", .str "MPRE_abc")])])]

/-- Subtitle data holding a single `MPRE`-identified run. -/
def exMpreData : Json :=
  .obj [("subtitle", .obj [("runs", .arr [mpreRun])])]

/-- A title run with a browse target carrying a page-type marker. -/
def browseTitleRun (text id pt : String) : Json :=
  .obj [("text", .str text),
        ("navigationEndpoint", .obj [("browseEndpoint", .obj
          [("browseId", .str id),
           ("browseEndpointContextSupportedConfigs", .obj
             [("browseEndpointContextMusicConfig", .obj
               [("pageType", .str pt)])])])])]

/-- An empty thumbnail renderer subtree (a present, empty thumbnail
array). -/
def exThumbRenderer : Json :=
  .obj [("musicThumbnailRenderer", .obj [("thumbnail", .obj
    [("thumbnails", .arr [])])])]

/-- A two-row item card whose title links to an ALBUM browse target. -/
def exAlbumData : Json :=
  .obj [("title", .obj [("runs", .arr
          [browseTitleRun "OK Computer" "MPREb_abc" "MUSIC_PAGE_TYPE_ALBUM"])]),
        ("thumbnailRenderer", exThumbRenderer),
        ("subtitle", .obj [("runs", .arr
          [textRun "Album", textRun " • ", textRun "Radiohead",
           textRun " • ", textRun "1997"])])]

def exAlbumItem : Json := .obj [("musicTwoRowItemRenderer", exAlbumData)]

/-- A two-row item card whose title links to an ARTIST browse target. -/
def exArtistData : Json :=
  .obj [("title", .obj [("runs", .arr
          [browseTitleRun "Radiohead" "UCartist1" "MUSIC_PAGE_TYPE_ARTIST"])]),
        ("thumbnailRenderer", exThumbRenderer)]

def exArtistItem : Json := .obj [("musicTwoRowItemRenderer", exArtistData)]

/-- A two-row item card whose title links to a PLAYLIST browse target,
with a "VL"-prefixed browse identifier. -/
def exPlaylistData : Json :=
  .obj [("title", .obj [("runs", .arr
          [browseTitleRun "My Mix" "VLPL123" "MUSIC_PAGE_TYPE_PLAYLIST"])]),
        ("thumbnailRenderer", exThumbRenderer)]

def exPlaylistItem : Json := .obj [("musicTwoRowItemRenderer", exPlaylistData)]

/-- The same playlist card with an unprefixed browse identifier. -/
def exPlaylistDataNoVL : Json :=
  .obj [("title", .obj [("runs", .arr
          [browseTitleRun "My Mix" "PL999" "MUSIC_PAGE_TYPE_PLAYLIST"])]),
        ("thumbnailRenderer", exThumbRenderer)]

/-- A watch endpoint with a video identifier and an optional music video
type. -/
def watchNav (vt : Option String) : Json :=
  .obj [("watchEndpoint", .obj
          ([("videoId", .str "vid123")] ++
           (match vt with
            | some t => [("watchEndpointMusicSupportedConfigs", .obj
                [("watchEndpointMusicConfig", .obj
                  [("musicVideoType", .str t)])])]
            | none => []))),
        ("watchPlaylistEndpoint", .obj [("playlistId", .str "RDwpl1")])]

/-- A two-row item card with a watch-playlist identifier and a UGC video
type. -/
def exVideoData : Json :=
  .obj [("title", .obj [("runs", .arr [textRun "Some Video"])]),
        ("navigationEndpoint", watchNav (some "MUSIC_VIDEO_TYPE_UGC")),
        ("thumbnailRenderer", exThumbRenderer)]

def exVideoItem : Json := .obj [("musicTwoRowItemRenderer", exVideoData)]

/-- The same card with an ATV video type (a song). -/
def exSongData : Json :=
  .obj [("title", .obj [("runs", .arr [textRun "Some Song"])]),
        ("navigationEndpoint", watchNav (some "MUSIC_VIDEO_TYPE_ATV")),
        ("thumbnailRenderer", exThumbRenderer)]

def exSongItem : Json := .obj [("musicTwoRowItemRenderer", exSongData)]

/-- The same card with the video-type enum absent (a watch playlist). -/
def exWatchData : Json :=
  .obj [("title", .obj [("runs", .arr [textRun "My Radio"])]),
        ("navigationEndpoint", watchNav none),
        ("thumbnailRenderer", exThumbRenderer)]

def exWatchItem : Json := .obj [("musicTwoRowItemRenderer", exWatchData)]

/-- A carousel with a titled header and one classifiable item. -/
def exGoodCarousel : Json :=
  .obj [("header", .obj [("musicCarouselShelfBasicHeaderRenderer", .obj
          [("title", .obj [("runs", .arr [textRun "Listen Again"])])])]),
        ("contents", .arr [exWatchItem])]

def exGoodRow : Json := .obj [("musicCarouselShelfRenderer", exGoodCarousel)]

/-- A carousel with a non-empty item list but no header at all. -/
def exBadCarousel : Json := .obj [("contents", .arr [exWatchItem])]

def exBadRow : Json := .obj [("musicCarouselShelfRenderer", exBadCarousel)]

/-- A carousel whose only item is unclassifiable (no two-row renderer). -/
def exSkipCarousel : Json :=
  .obj [("header", .obj [("musicCarouselShelfBasicHeaderRenderer", .obj
          [("title", .obj [("runs", .arr [textRun "Odd Shelf"])])])]),
        ("contents", .arr [.obj [("somethingElse", .str "x")]])]

def exSkipRow : Json := .obj [("musicCarouselShelfRenderer", exSkipCarousel)]

/-- A continuation document with no continuation-content region. -/
def exNoContinuation : Json := .obj [("responseContext", .str "x")]

/- ### Theorems. -/

/-- C4: for every pair of `HomeSections` values A and B, `extend` appends
B's sections after A's sections in order and leaves A's chips exactly as
they were: B's chip list never reaches the result. -/
theorem extend_appends_sections_preserves_chips (a b : HomeSections) :
    (a.extend b).sections = a.sections ++ b.sections ∧
    (a.extend b).chips = a.chips :=
  ⟨rfl, rfl⟩

/-- C5: `truncate n` keeps the first `min n length` sections unchanged and
in order (its section list is exactly `take n`, and below index `n` the
entries coincide with the original), leaves the chips untouched, and is a
no-op when `n` is at least the current number of sections. -/
theorem truncate_take_sections_chips_untouched (a : HomeSections) (n : Nat) :
    (a.truncate n).chips = a.chips ∧
    (a.truncate n).sections = a.sections.take n ∧
    (∀ i : Nat, i < n → ((a.truncate n).sections)[i]? = a.sections[i]?) ∧
    (a.sections.length ≤ n → a.truncate n = a) := by
  refine ⟨rfl, rfl, ?_, ?_⟩
  · intro i hi
    simp [HomeSections.truncate, List.getElem?_take, hi]
  · intro h
    cases a with
    | mk chips sections => simp [HomeSections.truncate, List.take_of_length_le h]

/-- Witness for C5 at a concrete feed: truncating two sections to one
keeps the first section and the chip, and truncating to five is a no-op. -/
theorem truncate_take_sections_chips_untouched_witness :
    ((HomeSections.new [{ title := "Energy", params := { raw := "p1" } }]
        [{ title := "S1", strapline := none, thumbnail := none, contents := [] },
         { title := "S2", strapline := none, thumbnail := none, contents := [] }]).truncate
        1).sections[0]? =
      (HomeSections.new [{ title := "Energy", params := { raw := "p1" } }]
        [{ title := "S1", strapline := none, thumbnail := none, contents := [] },
         { title := "S2", strapline := none, thumbnail := none, contents := [] }]).sections[0]? ∧
    (HomeSections.new [{ title := "Energy", params := { raw := "p1" } }]
        [{ title := "S1", strapline := none, thumbnail := none, contents := [] },
         { title := "S2", strapline := none, thumbnail := none, contents := [] }]).truncate 5 =
      HomeSections.new [{ title := "Energy", params := { raw := "p1" } }]
        [{ title := "S1", strapline := none, thumbnail := none, contents := [] },
         { title := "S2", strapline := none, thumbnail := none, contents := [] }] := by
  constructor
  · exact (truncate_take_sections_chips_untouched
      (HomeSections.new [{ title := "Energy", params := { raw := "p1" } }]
        [{ title := "S1", strapline := none, thumbnail := none, contents := [] },
         { title := "S2", strapline := none, thumbnail := none, contents := [] }]) 1).2.2.1
      0 (by decide)
  · exact (truncate_take_sections_chips_untouched
      (HomeSections.new [{ title := "Energy", params := { raw := "p1" } }]
        [{ title := "S1", strapline := none, thumbnail := none, contents := [] },
         { title := "S2", strapline := none, thumbnail := none, contents := [] }]) 5).2.2.2
      (by decide)

/-- C3: `parse_continuation` on a document whose continuation-content
region is structurally absent succeeds with empty chips and sections and
no cursor; being a pure function, every repeated call on the same document
returns this same result. -/
theorem parse_continuation_absent_region_empty (j : Json)
    (h : navigatePointer j SECTION_LIST_CONTINUATION = none) :
    parse_continuation j = .ok (HomeSections.new [] [], none) := by
  unfold parse_continuation
  rw [h]
  rfl

/-- Witness for C3: a concrete continuation document with no
continuation-content region. -/
theorem parse_continuation_absent_region_empty_witness :
    navigatePointer exNoContinuation SECTION_LIST_CONTINUATION = none ∧
    parse_continuation exNoContinuation = .ok (HomeSections.new [] [], none) :=
  ⟨rfl, parse_continuation_absent_region_empty exNoContinuation rfl⟩

/-- C10: the request produced by `GetHomeQuery` does not depend on the
value of the limit: for any two limits, the headers, params and path
coincide (the limit only gates the extra config entry). -/
theorem get_home_query_request_independent_of_limit (l1 l2 : Nat) :
    (GetHomeQuery.new.with_limit l1).header = (GetHomeQuery.new.with_limit l2).header ∧
    (GetHomeQuery.new.with_limit l1).params = (GetHomeQuery.new.with_limit l2).params ∧
    (GetHomeQuery.new.with_limit l1).path = (GetHomeQuery.new.with_limit l2).path :=
  ⟨rfl, rfl, rfl⟩

/-- The album parsed from `exAlbumItem`. -/
def exAlbumParsed : HomeAlbum :=
  { title := "OK Computer", album_id := ⟨"MPREb_abc"⟩, thumbnails := [],
    year := none, artists := [⟨"Radiohead", none⟩], explicit := .notExplicit,
    album_type := some "Album", subtitle := some "Album • Radiohead • 1997" }

/-- The artist parsed from `exArtistItem`. -/
def exArtistParsed : HomeArtist :=
  { title := "Radiohead", channel_id := ⟨"UCartist1"⟩, subscribers := none,
    thumbnails := [], subtitle := none }

/-- The playlist parsed from `exPlaylistItem` ("VL" stripped). -/
def exPlaylistParsed : HomePlaylist :=
  { title := "My Mix", playlist_id := ⟨"PL123"⟩, thumbnails := [],
    description := none, count := none, author := [], subtitle := none }

/-- The video parsed from `exVideoItem`. -/
def exVideoParsed : HomeVideo :=
  { title := "Some Video", video_id := ⟨"vid123"⟩, artists := [],
    thumbnails := [], views := none, playlist_id := none, subtitle := none }

/-- The song parsed from `exSongItem`. -/
def exSongParsed : HomeSong :=
  { title := "Some Song", video_id := ⟨"vid123"⟩, artists := [],
    thumbnails := [], album := none, explicit := .notExplicit,
    playlist_id := none, subtitle := none }

/-- The watch playlist parsed from `exWatchItem`. -/
def exWatchParsed : HomeWatchPlaylist :=
  { title := "My Radio", playlist_id := ⟨"RDwpl1"⟩, thumbnails := [],
    subtitle := none }

/-- C1: an item whose title navigation target carries a page-category
marker classifies by that marker alone — ALBUM/AUDIOBOOK give Album,
ARTIST/USER_CHANNEL give Artist, PLAYLIST gives Playlist — whatever other
fields the node carries: whenever `parse_home_item` succeeds on such a
node it returns the corresponding variant (in particular never a skip). -/
theorem parse_home_item_marker_classification (item data : Json)
    (hdata : navigatePointer item MTRIR = some data) :
    ((takeString data (TITLE ++ NAVIGATION_BROWSE ++ PAGE_TYPE) = some "MUSIC_PAGE_TYPE_ALBUM" ∨
      takeString data (TITLE ++ NAVIGATION_BROWSE ++ PAGE_TYPE) = some "MUSIC_PAGE_TYPE_AUDIOBOOK") →
      ∀ r, parse_home_item item = .ok r → ∃ a, r = some (HomeContent.album a)) ∧
    ((takeString data (TITLE ++ NAVIGATION_BROWSE ++ PAGE_TYPE) = some "MUSIC_PAGE_TYPE_ARTIST" ∨
      takeString data (TITLE ++ NAVIGATION_BROWSE ++ PAGE_TYPE) = some "MUSIC_PAGE_TYPE_USER_CHANNEL") →
      ∀ r, parse_home_item item = .ok r → ∃ a, r = some (HomeContent.artist a)) ∧
    (takeString data (TITLE ++ NAVIGATION_BROWSE ++ PAGE_TYPE) = some "MUSIC_PAGE_TYPE_PLAYLIST" →
      ∀ r, parse_home_item item = .ok r → ∃ p, r = some (HomeContent.playlist p)) := by
  refine ⟨?_, ?_, ?_⟩
  · rintro (h | h) r hr <;>
    · simp only [parse_home_item, hdata, h] at hr
      rcases hok : parse_home_album data with e | a <;> rw [hok] at hr <;>
        simp [Except.map] at hr
      exact ⟨a, hr.symm⟩
  · rintro (h | h) r hr <;>
    · simp only [parse_home_item, hdata, h] at hr
      rcases hok : parse_home_artist data with e | a <;> rw [hok] at hr <;>
        simp [Except.map] at hr
      exact ⟨a, hr.symm⟩
  · intro h r hr
    simp only [parse_home_item, hdata, h] at hr
    rcases hok : parse_home_playlist data with e | p <;> rw [hok] at hr <;>
      simp [Except.map] at hr
    exact ⟨p, hr.symm⟩

/-- Witness for C1: concrete ALBUM, ARTIST and PLAYLIST cards, each
parsing successfully to the variant the marker dictates. -/
theorem parse_home_item_marker_classification_witness :
    (navigatePointer exAlbumItem MTRIR = some exAlbumData ∧
     takeString exAlbumData (TITLE ++ NAVIGATION_BROWSE ++ PAGE_TYPE) =
       some "MUSIC_PAGE_TYPE_ALBUM" ∧
     parse_home_item exAlbumItem = .ok (some (.album exAlbumParsed)) ∧
     ∃ a, (some (HomeContent.album exAlbumParsed) : Option HomeContent) =
       some (.album a)) ∧
    (parse_home_item exArtistItem = .ok (some (.artist exArtistParsed)) ∧
     ∃ a, (some (HomeContent.artist exArtistParsed) : Option HomeContent) =
       some (.artist a)) ∧
    (parse_home_item exPlaylistItem = .ok (some (.playlist exPlaylistParsed)) ∧
     ∃ p, (some (HomeContent.playlist exPlaylistParsed) : Option HomeContent) =
       some (.playlist p)) :=
  ⟨⟨rfl, rfl, rfl,
    (parse_home_item_marker_classification exAlbumItem exAlbumData rfl).1
      (Or.inl rfl) (some (.album exAlbumParsed)) rfl⟩,
   ⟨rfl,
    (parse_home_item_marker_classification exArtistItem exArtistData rfl).2.1
      (Or.inl rfl) (some (.artist exArtistParsed)) rfl⟩,
   ⟨rfl,
    (parse_home_item_marker_classification exPlaylistItem exPlaylistData rfl).2.2
      rfl (some (.playlist exPlaylistParsed)) rfl⟩⟩

/-- C2: an item with no page-category marker and a present watch-playlist
identifier classifies by the embedded video-type enum: UGC/OMV/SHOULDER
give Video, any other concrete value gives Song, an absent enum gives
WatchPlaylist — whenever `parse_home_item` succeeds on such a node. -/
theorem parse_home_item_watch_playlist_classification (item data : Json)
    (hdata : navigatePointer item MTRIR = some data)
    (hpt : takeString data (TITLE ++ NAVIGATION_BROWSE ++ PAGE_TYPE) = none)
    (hwp : pathExists data NAVIGATION_WATCH_PLAYLIST_ID = true) :
    (∀ t, takeVideoType data = some t →
      (t = .ugc ∨ t = .omv ∨ t = .shoulder) →
      ∀ r, parse_home_item item = .ok r → ∃ v, r = some (HomeContent.video v)) ∧
    (∀ t, takeVideoType data = some t →
      t ≠ .ugc → t ≠ .omv → t ≠ .shoulder →
      ∀ r, parse_home_item item = .ok r → ∃ s, r = some (HomeContent.song s)) ∧
    (takeVideoType data = none →
      ∀ r, parse_home_item item = .ok r → ∃ w, r = some (HomeContent.watchPlaylist w)) := by
  refine ⟨?_, ?_, ?_⟩
  · rintro t hvt (h | h | h) r hr <;> subst h <;>
    · simp only [parse_home_item, hdata, hpt, hwp, hvt] at hr
      rcases hok : parse_home_video data with e | v <;> rw [hok] at hr <;>
        simp [Except.map] at hr
      exact ⟨v, hr.symm⟩
  · intro t hvt h1 h2 h3 r hr
    simp only [parse_home_item, hdata, hpt, hwp, hvt] at hr
    cases t with
    | ugc => exact absurd rfl h1
    | omv => exact absurd rfl h2
    | shoulder => exact absurd rfl h3
    | atv =>
        rcases hok : parse_home_song data with e | s <;> rw [hok] at hr <;>
          simp [Except.map] at hr
        exact ⟨s, hr.symm⟩
    | officialSourceMusic =>
        rcases hok : parse_home_song data with e | s <;> rw [hok] at hr <;>
          simp [Except.map] at hr
        exact ⟨s, hr.symm⟩
  · intro hvt r hr
    simp only [parse_home_item, hdata, hpt, hwp, hvt] at hr
    rcases hok : parse_home_watch_playlist data with e | w <;> rw [hok] at hr <;>
      simp [Except.map] at hr
    exact ⟨w, hr.symm⟩

/-- Witness for C2: the same card with video type UGC parses to Video,
with ATV to Song, and with the enum absent to WatchPlaylist. -/
theorem parse_home_item_watch_playlist_classification_witness :
    (navigatePointer exVideoItem MTRIR = some exVideoData ∧
     takeString exVideoData (TITLE ++ NAVIGATION_BROWSE ++ PAGE_TYPE) = none ∧
     pathExists exVideoData NAVIGATION_WATCH_PLAYLIST_ID = true ∧
     takeVideoType exVideoData = some .ugc ∧
     parse_home_item exVideoItem = .ok (some (.video exVideoParsed)) ∧
     ∃ v, (some (HomeContent.video exVideoParsed) : Option HomeContent) =
       some (.video v)) ∧
    (takeVideoType exSongData = some .atv ∧
     parse_home_item exSongItem = .ok (some (.song exSongParsed)) ∧
     ∃ s, (some (HomeContent.song exSongParsed) : Option HomeContent) =
       some (.song s)) ∧
    (takeVideoType exWatchData = none ∧
     parse_home_item exWatchItem = .ok (some (.watchPlaylist exWatchParsed)) ∧
     ∃ w, (some (HomeContent.watchPlaylist exWatchParsed) : Option HomeContent) =
       some (.watchPlaylist w)) :=
  ⟨⟨rfl, rfl, rfl, rfl, rfl,
    (parse_home_item_watch_playlist_classification exVideoItem exVideoData
      rfl rfl rfl).1 .ugc rfl (Or.inl rfl) (some (.video exVideoParsed)) rfl⟩,
   ⟨rfl, rfl,
    (parse_home_item_watch_playlist_classification exSongItem exSongData
      rfl rfl rfl).2.1 .atv rfl (by decide) (by decide) (by decide)
      (some (.song exSongParsed)) rfl⟩,
   ⟨rfl, rfl,
    (parse_home_item_watch_playlist_classification exWatchItem exWatchData
      rfl rfl rfl).2.2 rfl (some (.watchPlaylist exWatchParsed)) rfl⟩⟩

/-- Counterexample for C6: no single tokenizer applies all three
exclusions.  `parse_artists_from_subtitle_runs` emits a token whose
identifier carries the album-reference prefix MPRE as an artist, while
`parse_song_artists_from_runs` emits the type marker "Album" and the
four-digit year "1997" as artists on the §8.6 token list. -/
theorem subtitle_tokenizer_counterexample :
    parse_artists_from_subtitle_runs exMpreData =
      .ok [{ name := "OK Computer", id := some ⟨"MPRE_abc"⟩ }] ∧
    strStartsWith "MPRE_abc" "MPRE" = true ∧
    parse_song_artists_from_runs exAlbumSubtitleData =
      .ok [{ name := "Album", id := none }, { name := "Radiohead", id := none },
           { name := "1997", id := none }] :=
  ⟨rfl, rfl, rfl⟩

/-- Every artist emitted by the subtitle-run artist loop has a name that
is neither a type-specifier word nor a four-ASCII-digit year. -/
theorem artistsFromSubtitleLoop_mem (xs : List Json) :
    ∀ i a, a ∈ artistsFromSubtitleLoop i xs →
      ¬(a.name = "Album" ∨ a.name = "Single" ∨ a.name = "EP" ∨
        a.name = "Song" ∨ a.name = "Video") ∧
      ¬(a.name.length = 4 ∧ a.name.data.all Char.isDigit = true) := by
  induction xs with
  | nil => intro i a ha; simp [artistsFromSubtitleLoop] at ha
  | cons run rest ih =>
      intro i a ha
      rw [artistsFromSubtitleLoop] at ha
      split at ha
      · exact ih _ _ ha
      · split at ha
        · exact ih _ _ ha
        · rename_i text htext
          split at ha
          · exact ih _ _ ha
          · rename_i hm
            split at ha
            · exact ih _ _ ha
            · rename_i hy
              rcases List.mem_cons.mp ha with hEq | hMem
              · subst hEq
                constructor
                · intro hcon
                  dsimp only at hcon
                  apply hm
                  rcases hcon with h | h | h | h | h <;> simp [h]
                · intro hc
                  dsimp only at hc
                  apply hy
                  simp [hc.1, hc.2]
              · exact ih _ _ hMem

/-- Every artist emitted by the song-artist loop either has no identifier
or an identifier that does not start with the album prefix MPRE. -/
theorem songArtistsLoop_no_mpre (xs : List Json) :
    ∀ i a, a ∈ songArtistsLoop i xs →
      ∀ cid, a.id = some cid → strStartsWith cid.raw "MPRE" = false := by
  induction xs with
  | nil => intro i a ha; simp [songArtistsLoop] at ha
  | cons run rest ih =>
      intro i a ha
      rw [songArtistsLoop] at ha
      split at ha
      · exact ih _ _ ha
      · split at ha
        · exact ih _ _ ha
        · rename_i text htext
          split at ha
          · exact ih _ _ ha
          · split at ha
            · exact ih _ _ ha
            · split at ha
              · rename_i browse_id hid
                split at ha
                · exact ih _ _ ha
                · rename_i hmpre
                  rcases List.mem_cons.mp ha with hEq | hMem
                  · subst hEq
                    intro cid hcid
                    cases hcid
                    simpa using hmpre
                  · exact ih _ _ hMem
              · rcases List.mem_cons.mp ha with hEq | hMem
                · subst hEq
                  intro cid hcid
                  cases hcid
                · exact ih _ _ hMem

/-- C6 (amended): each tokenizer applies its own exclusions.
`parse_artists_from_subtitle_runs` (album/playlist subtitles) never emits
a type-marker word or a four-ASCII-digit year as an artist, and on the
§8.6 token list yields exactly the artist "Radiohead";
`parse_song_artists_from_runs` (song/video subtitles) never emits a token
whose identifier starts with the album-reference prefix MPRE as an
artist.  The MPRE exclusion does not apply to the former tokenizer, nor
the marker/year exclusion to the latter. -/
theorem subtitle_tokenizers_amended (d1 d2 : Json) (l1 l2 : List ParsedSongArtist)
    (h1 : parse_artists_from_subtitle_runs d1 = .ok l1)
    (h2 : parse_song_artists_from_runs d2 = .ok l2) :
    (∀ a ∈ l1,
      ¬(a.name = "Album" ∨ a.name = "Single" ∨ a.name = "EP" ∨
        a.name = "Song" ∨ a.name = "Video") ∧
      ¬(a.name.length = 4 ∧ a.name.data.all Char.isDigit = true)) ∧
    (∀ a ∈ l2, ∀ cid, a.id = some cid → strStartsWith cid.raw "MPRE" = false) ∧
    parse_artists_from_subtitle_runs exAlbumSubtitleData =
      .ok [{ name := "Radiohead", id := none }] := by
  refine ⟨?_, ?_, rfl⟩
  · intro a ha
    unfold parse_artists_from_subtitle_runs at h1
    split at h1
    · cases h1
      simp at ha
    · split at h1
      · cases h1
        exact artistsFromSubtitleLoop_mem _ _ _ ha
      · cases h1
  · intro a ha
    unfold parse_song_artists_from_runs at h2
    split at h2
    · cases h2
      simp at ha
    · split at h2
      · cases h2
        exact songArtistsLoop_no_mpre _ _ _ ha
      · cases h2

/-- Witness for the amended C6 at the concrete token lists of §8.6. -/
theorem subtitle_tokenizers_amended_witness :
    parse_artists_from_subtitle_runs exAlbumSubtitleData =
      .ok [{ name := "Radiohead", id := none }] ∧
    parse_song_artists_from_runs exMpreData = .ok [] ∧
    (∀ a ∈ [({ name := "Radiohead", id := none } : ParsedSongArtist)],
      ¬(a.name = "Album" ∨ a.name = "Single" ∨ a.name = "EP" ∨
        a.name = "Song" ∨ a.name = "Video") ∧
      ¬(a.name.length = 4 ∧ a.name.data.all Char.isDigit = true)) ∧
    (∀ a ∈ ([] : List ParsedSongArtist), ∀ cid, a.id = some cid →
      strStartsWith cid.raw "MPRE" = false) :=
  ⟨rfl, rfl,
   (subtitle_tokenizers_amended exAlbumSubtitleData exMpreData
     [{ name := "Radiohead", id := none }] [] rfl rfl).1,
   (subtitle_tokenizers_amended exAlbumSubtitleData exMpreData
     [{ name := "Radiohead", id := none }] [] rfl rfl).2.1⟩

/-- Counterexample for C7: a first page whose first shelf row has a
non-empty item list but no header/title fails as a whole — the second
(well-formed) row, which parses to a section on its own, contributes
nothing because `parse_home_contents` propagates the row error. -/
theorem missing_title_counterexample :
    pathExists exBadCarousel "/contents" = true ∧
    (navigatePointer exBadCarousel "/contents").bind Json.asArr = some [exWatchItem] ∧
    navigatePointer exBadCarousel CAROUSEL_HEADER = none ∧
    parse_home_contents (Json.arr [exBadRow, exGoodRow]) = .error "header" ∧
    parse_home_contents (Json.arr [exGoodRow]) =
      .ok ([], [{ title := "Listen Again", strapline := none, thumbnail := none,
                  contents := [.watchPlaylist exWatchParsed] }]) :=
  ⟨rfl, rfl, rfl, rfl, rfl⟩

/-- Reduction of a successful `Except` bind (shared helper). -/
theorem exceptOkBind {α β : Type} (a : α) (f : α → Except String β) :
    (Except.ok a >>= f) = f a := rfl

/-- Reduction of a failed `Except` bind (shared helper). -/
theorem exceptErrorBind {α β : Type} (e : String) (f : α → Except String β) :
    ((Except.error e : Except String α) >>= f) = .error e := rfl

/-- C7 (amended): a shelf row with an item list whose header or title does
not resolve is a hard error for the whole page, not just for that row:
`parse_home_contents` propagates the error, so no section of any row —
including later well-formed rows — appears in a result. -/
theorem missing_title_aborts_page (row car : Json) (rest : List Json)
    (hchip : pathExists row CHIP_CLOUD_PATH = false)
    (hcar : navigatePointer row CAROUSEL = some car)
    (hcont : pathExists car "/contents" = true)
    (hbad : navigatePointer car CAROUSEL_HEADER = none ∨
      ∃ hd, navigatePointer car CAROUSEL_HEADER = some hd ∧
        takeString hd (TITLE ++ "/text") = none) :
    ∃ e, parse_home_contents (Json.arr (row :: rest)) = .error e := by
  have hsec : ∃ e, parse_carousel_section car = .error e := by
    unfold parse_carousel_section
    rw [hcont]
    rcases hbad with hh | ⟨hd, hh, ht⟩
    · refine ⟨"header", ?_⟩
      rw [hh]
      rfl
    · refine ⟨"title", ?_⟩
      rw [hh]
      simp only [reqField, exceptOkBind, ht]
      rfl
  rcases hsec with ⟨e, he⟩
  refine ⟨e, ?_⟩
  show parse_home_rows (row :: rest) = .error e
  rw [parse_home_rows, hchip]
  have hex : pathExists row CAROUSEL = true := by
    simp [pathExists, hcar]
  simp only [Bool.false_eq_true, if_false, hex, if_true, hcar, he, Except.bind]
  rfl

/-- Witness for the amended C7: the concrete two-row page whose first
shelf lacks a header. -/
theorem missing_title_aborts_page_witness :
    pathExists exBadRow CHIP_CLOUD_PATH = false ∧
    navigatePointer exBadRow CAROUSEL = some exBadCarousel ∧
    pathExists exBadCarousel "/contents" = true ∧
    (∃ e, parse_home_contents (Json.arr [exBadRow, exGoodRow]) = .error e) :=
  ⟨rfl, rfl, rfl,
   missing_title_aborts_page exBadRow exBadCarousel [exGoodRow] rfl rfl rfl (Or.inl rfl)⟩

/-- A carousel section that is actually produced has at least one content
item: the empty case returns `Ok(None)` instead (shared helper). -/
theorem parse_carousel_section_some_nonempty (car : Json) (s : HomeSection)
    (h : parse_carousel_section car = .ok (some s)) : s.contents ≠ [] := by
  unfold parse_carousel_section at h
  split at h
  · simp at h
  · cases hH : navigatePointer car CAROUSEL_HEADER with
    | none => rw [hH] at h; simp [reqField, exceptErrorBind] at h
    | some hd =>
      rw [hH] at h
      simp only [reqField, exceptOkBind] at h
      cases hT : takeString hd (TITLE ++ "/text") with
      | none => rw [hT] at h; simp [reqField, exceptErrorBind] at h
      | some title =>
        rw [hT] at h
        simp only [reqField, exceptOkBind] at h
        cases hC : navigatePointer car "/contents" with
        | none => rw [hC] at h; simp [reqField, exceptErrorBind] at h
        | some cn =>
          rw [hC] at h
          simp only [reqField, exceptOkBind] at h
          cases hA : cn.asArr with
          | none => rw [hA] at h; simp [reqField, exceptErrorBind] at h
          | some items =>
            rw [hA] at h
            simp only [reqField, exceptOkBind] at h
            cases hL : homeItemsLoop items with
            | error e => rw [hL] at h; simp [exceptErrorBind] at h
            | ok cs =>
              rw [hL] at h
              simp only [exceptOkBind] at h
              split at h
              · simp at h
              · rename_i hne
                simp only [Except.ok.injEq, Option.some.injEq] at h
                subst h
                intro hc
                dsimp only at hc
                apply hne
                simp [hc]

/-- Every section produced by the first-page row loop has at least one
classified item (shared helper). -/
theorem parse_home_rows_sections_nonempty (rows : List Json) :
    ∀ chips sections, parse_home_rows rows = .ok (chips, sections) →
      ∀ s ∈ sections, s.contents ≠ [] := by
  induction rows with
  | nil =>
      intro chips sections h s hs
      cases h
      simp at hs
  | cons row rest ih =>
      intro chips sections h s hs
      rw [parse_home_rows] at h
      split at h
      · split at h
        · rename_i cc hcc
          cases hcl : parse_chip_cloud cc with
          | error e => rw [hcl] at h; simp [exceptErrorBind] at h
          | ok cs =>
            rw [hcl] at h
            simp only [exceptOkBind] at h
            cases hrec : parse_home_rows rest with
            | error e => rw [hrec] at h; simp [exceptErrorBind] at h
            | ok pr =>
              rw [hrec] at h
              simp only [exceptOkBind] at h
              obtain ⟨rc, rs⟩ := pr
              cases h
              exact ih _ _ hrec s hs
        · exact ih _ _ h s hs
      · split at h
        · split at h
          · rename_i car hcar
            cases hsec : parse_carousel_section car with
            | error e => rw [hsec] at h; simp [exceptErrorBind] at h
            | ok s? =>
              rw [hsec] at h
              simp only [exceptOkBind] at h
              cases hrec : parse_home_rows rest with
              | error e => rw [hrec] at h; simp [exceptErrorBind] at h
              | ok pr =>
                rw [hrec] at h
                simp only [exceptOkBind] at h
                obtain ⟨rc, rs⟩ := pr
                cases s? with
                | some s0 =>
                    cases h
                    rcases List.mem_cons.mp hs with hEq | hMem
                    · subst hEq
                      exact parse_carousel_section_some_nonempty car s hsec
                    · exact ih _ _ hrec s hMem
                | none =>
                    cases h
                    exact ih _ _ hrec s hs
          · exact ih _ _ h s hs
        · exact ih _ _ h s hs

/-- C8: every section of a parsed first page has at least one successfully
classified content item; a shelf with no item list or all of whose items
are skipped yields no section at all, so it cannot appear in the feed. -/
theorem feed_sections_have_classified_item (contents : Json)
    (chips : List HomeMoodChip) (sections : List HomeSection)
    (h : parse_home_contents contents = .ok (chips, sections)) :
    ∀ s ∈ sections, s.contents ≠ [] := by
  unfold parse_home_contents at h
  split at h
  · exact parse_home_rows_sections_nonempty _ _ _ h
  · cases h

/-- Witness for C8: a concrete page with one classifiable shelf and one
shelf whose only item is skipped; the skipped shelf is dropped and the
surviving section is non-empty. -/
theorem feed_sections_have_classified_item_witness :
    parse_home_contents (Json.arr [exGoodRow, exSkipRow]) =
      .ok ([], [{ title := "Listen Again", strapline := none, thumbnail := none,
                  contents := [.watchPlaylist exWatchParsed] }]) ∧
    ({ title := "Listen Again", strapline := none, thumbnail := none,
       contents := [.watchPlaylist exWatchParsed] } : HomeSection).contents ≠ [] :=
  ⟨rfl,
   feed_sections_have_classified_item (Json.arr [exGoodRow, exSkipRow]) []
     [{ title := "Listen Again", strapline := none, thumbnail := none,
        contents := [.watchPlaylist exWatchParsed] }] rfl _ (by simp)⟩

/-- The playlist parsed from `exPlaylistDataNoVL` (identifier kept). -/
def exPlaylistParsedNoVL : HomePlaylist :=
  { title := "My Mix", playlist_id := ⟨"PL999"⟩, thumbnails := [],
    description := none, count := none, author := [], subtitle := none }

/-- C9: the stored playlist identifier is the raw browse identifier with a
leading "VL" prefix removed when present and unchanged otherwise, and no
other variant rewrites its identifier: album, artist and watch-playlist
cards store the raw identifier, and song/video cards store the raw video
identifier. -/
theorem playlist_id_vl_stripped_only (data : Json) :
    (∀ raw p, takeString data (TITLE ++ NAVIGATION_BROWSE_ID) = some raw →
      parse_home_playlist data = .ok p →
      p.playlist_id = PlaylistID.mk
        (if strStartsWith raw "VL" then strDrop raw 2 else raw)) ∧
    (∀ raw a, takeString data (TITLE ++ NAVIGATION_BROWSE_ID) = some raw →
      parse_home_album data = .ok a → a.album_id = AlbumID.mk raw) ∧
    (∀ raw ar, takeString data (TITLE ++ NAVIGATION_BROWSE_ID) = some raw →
      parse_home_artist data = .ok ar → ar.channel_id = ArtistChannelID.mk raw) ∧
    (∀ w wp, takeString data NAVIGATION_WATCH_PLAYLIST_ID = some w →
      parse_home_watch_playlist data = .ok wp → wp.playlist_id = PlaylistID.mk w) ∧
    (∀ v s, takeString data NAVIGATION_VIDEO_ID = some v →
      parse_home_song data = .ok s → s.video_id = VideoID.mk v) ∧
    (∀ v hv, takeString data NAVIGATION_VIDEO_ID = some v →
      parse_home_video data = .ok hv → hv.video_id = VideoID.mk v) := by
  refine ⟨?_, ?_, ?_, ?_, ?_, ?_⟩
  · intro raw p h1 h2
    unfold parse_home_playlist at h2
    cases hT : takeString data TITLE_TEXT with
    | none => rw [hT] at h2; simp [reqField, exceptErrorBind] at h2
    | some t =>
      rw [hT] at h2
      simp only [reqField, exceptOkBind] at h2
      rw [h1] at h2
      simp only [reqField, exceptOkBind] at h2
      cases hTh : takeThumbnails data THUMBNAIL_RENDERER with
      | none => rw [hTh] at h2; simp [reqField, exceptErrorBind] at h2
      | some th =>
        rw [hTh] at h2
        simp only [reqField, exceptOkBind, Except.ok.injEq] at h2
        subst h2
        rfl
  · intro raw a h1 h2
    unfold parse_home_album at h2
    cases hT : takeString data TITLE_TEXT with
    | none => rw [hT] at h2; simp [reqField, exceptErrorBind] at h2
    | some t =>
      rw [hT] at h2
      simp only [reqField, exceptOkBind] at h2
      rw [h1] at h2
      simp only [Option.map, reqField, exceptOkBind] at h2
      cases hTh : takeThumbnails data THUMBNAIL_RENDERER with
      | none => rw [hTh] at h2; simp [reqField, exceptErrorBind] at h2
      | some th =>
        rw [hTh] at h2
        simp only [reqField, exceptOkBind] at h2
        cases hAr : parse_artists_from_subtitle_runs data with
        | error e => rw [hAr] at h2; simp [exceptErrorBind] at h2
        | ok arts =>
          rw [hAr] at h2
          simp only [exceptOkBind, Except.ok.injEq] at h2
          subst h2
          rfl
  · intro raw ar h1 h2
    unfold parse_home_artist at h2
    cases hT : takeString data TITLE_TEXT with
    | none => rw [hT] at h2; simp [reqField, exceptErrorBind] at h2
    | some t =>
      rw [hT] at h2
      simp only [reqField, exceptOkBind] at h2
      rw [h1] at h2
      simp only [Option.map, reqField, exceptOkBind] at h2
      cases hTh : takeThumbnails data THUMBNAIL_RENDERER with
      | none => rw [hTh] at h2; simp [reqField, exceptErrorBind] at h2
      | some th =>
        rw [hTh] at h2
        simp only [reqField, exceptOkBind, Except.ok.injEq] at h2
        subst h2
        rfl
  · intro w wp h1 h2
    unfold parse_home_watch_playlist at h2
    cases hT : takeString data TITLE_TEXT with
    | none => rw [hT] at h2; simp [reqField, exceptErrorBind] at h2
    | some t =>
      rw [hT] at h2
      simp only [reqField, exceptOkBind] at h2
      rw [h1] at h2
      simp only [Option.map, reqField, exceptOkBind] at h2
      cases hTh : takeThumbnails data THUMBNAIL_RENDERER with
      | none => rw [hTh] at h2; simp [reqField, exceptErrorBind] at h2
      | some th =>
        rw [hTh] at h2
        simp only [reqField, exceptOkBind, Except.ok.injEq] at h2
        subst h2
        rfl
  · intro v s h1 h2
    unfold parse_home_song at h2
    cases hT : takeString data TITLE_TEXT with
    | none => rw [hT] at h2; simp [reqField, exceptErrorBind] at h2
    | some t =>
      rw [hT] at h2
      simp only [reqField, exceptOkBind] at h2
      rw [h1] at h2
      simp only [Option.map, reqField, exceptOkBind] at h2
      cases hTh : takeThumbnails data THUMBNAIL_RENDERER with
      | none => rw [hTh] at h2; simp [reqField, exceptErrorBind] at h2
      | some th =>
        rw [hTh] at h2
        simp only [reqField, exceptOkBind] at h2
        cases hAr : parse_song_artists_from_runs data with
        | error e => rw [hAr] at h2; simp [exceptErrorBind] at h2
        | ok arts =>
          rw [hAr] at h2
          simp only [exceptOkBind] at h2
          cases hAl : parse_album_from_subtitle_runs data with
          | error e => rw [hAl] at h2; simp [exceptErrorBind] at h2
          | ok alb =>
            rw [hAl] at h2
            simp only [exceptOkBind, Except.ok.injEq] at h2
            subst h2
            rfl
  · intro v hv h1 h2
    unfold parse_home_video at h2
    cases hT : takeString data TITLE_TEXT with
    | none => rw [hT] at h2; simp [reqField, exceptErrorBind] at h2
    | some t =>
      rw [hT] at h2
      simp only [reqField, exceptOkBind] at h2
      rw [h1] at h2
      simp only [Option.map, reqField, exceptOkBind] at h2
      cases hTh : takeThumbnails data THUMBNAIL_RENDERER with
      | none => rw [hTh] at h2; simp [reqField, exceptErrorBind] at h2
      | some th =>
        rw [hTh] at h2
        simp only [reqField, exceptOkBind] at h2
        cases hAr : parse_song_artists_from_runs data with
        | error e => rw [hAr] at h2; simp [exceptErrorBind] at h2
        | ok arts =>
          rw [hAr] at h2
          simp only [exceptOkBind, Except.ok.injEq] at h2
          subst h2
          rfl

/-- Witness for C9 at concrete cards: the "VL" prefix is stripped, a plain
identifier is kept, and album/artist/watch/song/video identifiers are
stored raw. -/
theorem playlist_id_vl_stripped_only_witness :
    parse_home_playlist exPlaylistData = .ok exPlaylistParsed ∧
    exPlaylistParsed.playlist_id = PlaylistID.mk
      (if strStartsWith "VLPL123" "VL" then strDrop "VLPL123" 2 else "VLPL123") ∧
    parse_home_playlist exPlaylistDataNoVL = .ok exPlaylistParsedNoVL ∧
    exPlaylistParsedNoVL.playlist_id = PlaylistID.mk
      (if strStartsWith "PL999" "VL" then strDrop "PL999" 2 else "PL999") ∧
    exAlbumParsed.album_id = AlbumID.mk "MPREb_abc" ∧
    exArtistParsed.channel_id = ArtistChannelID.mk "UCartist1" ∧
    exWatchParsed.playlist_id = PlaylistID.mk "RDwpl1" ∧
    exSongParsed.video_id = VideoID.mk "vid123" ∧
    exVideoParsed.video_id = VideoID.mk "vid123" :=
  ⟨rfl,
   (playlist_id_vl_stripped_only exPlaylistData).1 "VLPL123" exPlaylistParsed rfl rfl,
   rfl,
   (playlist_id_vl_stripped_only exPlaylistDataNoVL).1 "PL999" exPlaylistParsedNoVL rfl rfl,
   (playlist_id_vl_stripped_only exAlbumData).2.1 "MPREb_abc" exAlbumParsed rfl rfl,
   (playlist_id_vl_stripped_only exArtistData).2.2.1 "UCartist1" exArtistParsed rfl rfl,
   (playlist_id_vl_stripped_only exWatchData).2.2.2.1 "RDwpl1" exWatchParsed rfl rfl,
   (playlist_id_vl_stripped_only exSongData).2.2.2.2.1 "vid123" exSongParsed rfl rfl,
   (playlist_id_vl_stripped_only exVideoData).2.2.2.2.2 "vid123" exVideoParsed rfl rfl⟩
